import Mathlib

/-!
Shallow embedding of the TRINERA backend (src/backend/app) for checking the
natural-language specification against the code.

Conventions of the embedding:
* Python floats are modelled as rationals (the code only compares and adds
  simple decimal constants, so exact rational arithmetic is faithful).
* Python `datetime` values are modelled as rational timestamps in seconds;
  `datetime.now()` is passed in explicitly as a `now` argument.
* External services (PIL image decoding, the remote Gradio classifier, the
  LLM completion call, the TTS engine, the pest knowledge table) are passed
  in as explicit parameters or oracle values; everything else is translated
  from the source.
* Python string truthiness (empty string / empty list / None are falsy) is
  modelled explicitly where the source relies on it.
-/

namespace Trinera

/-- Models the Python ASCII case fold used by `str.lower()` on the inputs the
code compares (the pest keywords are lowercase ASCII or caseless Devanagari). -/
def pyLower (s : String) : String :=
  String.mk (s.data.map Char.toLower)

/-- Char-list helper: the first list occurs at the head of the second. -/
def charsBeginWith : List Char → List Char → Bool
  | [], _ => true
  | _ :: _, [] => false
  | a :: as, b :: bs => a == b && charsBeginWith as bs

/-- Char-list helper: the first list occurs somewhere inside the second. -/
def charsContain (needle : List Char) : List Char → Bool
  | [] => needle.isEmpty
  | b :: bs => charsBeginWith needle (b :: bs) || charsContain needle bs

/-- Models the Python substring test `needle in hay`. -/
def strContains (hay needle : String) : Bool :=
  charsContain needle.data hay.data

/-- Result of `VisionAnalyzer.quick_analyze` (vision_analyzer.py):
a dict with keys has_relevant_content, objects_detected (label/confidence
pairs), confidence, description. -/
structure VisionResult where
  has_relevant_content : Bool
  objects_detected : List (String × ℚ)
  confidence : ℚ
  description : String
deriving DecidableEq

/-- The bilingual pest keyword list from `VisionAnalyzer.match_intent`
(vision_analyzer.py lines 203-211), verbatim. -/
def pest_keywords : List String :=
  [ "pest", "bug", "insect", "what is this", "identify", "this is",
    "attacking", "eating", "damage", "problem", "disease",
    "what pest", "which pest", "name this", "tell me about",
    "aphid", "whitefly", "beetle", "caterpillar", "worm",
    "कीट", "रोग", "समस्या", "यह क्या है", "पहचान" ]

/-- Result of `VisionAnalyzer.match_intent`. -/
structure IntentMatch where
  should_call_heavy_model : Bool
  match_score : ℚ
  reason : String
  is_pest_query : Bool
  has_visual_content : Bool
deriving DecidableEq

/-- Embeds `VisionAnalyzer.match_intent` (vision_analyzer.py lines 178-256):
keyword membership on the lowercased query, gate `is_pest_query and
has_content`, additive 0.5 / 0.3 / 0.2 score, and the four reason strings. -/
def match_intent (user_query : String) (vision_result : VisionResult) : IntentMatch :=
  let query_lower := pyLower user_query
  let is_pest_query := pest_keywords.any (fun kw => strContains query_lower kw)
  let has_content := vision_result.has_relevant_content
  let confidence := vision_result.confidence
  let should_detect := is_pest_query && has_content
  let match_score : ℚ :=
    (if is_pest_query then 1/2 else 0) +
    (if has_content then 3/10 else 0) +
    (if confidence > 1/2 then 1/5 else 0)
  let reason :=
    if should_detect then "Pest-related query with relevant objects detected"
    else if is_pest_query && !has_content then "Pest query but no relevant objects in frame"
    else if !is_pest_query && has_content then "General question, skipping heavy detection"
    else "No pest query and no relevant content"
  { should_call_heavy_model := should_detect
    match_score := match_score
    reason := reason
    is_pest_query := is_pest_query
    has_visual_content := has_content }

/-- Raw image bytes handed to the triage (opaque to the embedding). -/
abbrev ImageBytes := List Nat

/-- Embeds `VisionAnalyzer._fallback_analysis` (vision_analyzer.py lines
153-176). PIL decoding (`Image.open`) is the one external dependency and is
passed in as `decode`, returning the width and height on success and `none`
when the bytes do not decode (the `except` branch). -/
def fallback_analysis (decode : ImageBytes → Option (Nat × Nat))
    (image_bytes : ImageBytes) : VisionResult :=
  match decode image_bytes with
  | some (w, h) =>
      { has_relevant_content := true
        objects_detected := []
        confidence := 1/2
        description := "Image captured (" ++ toString w ++ "x" ++ toString h ++ ")" }
  | none =>
      { has_relevant_content := false
        objects_detected := []
        confidence := 0
        description := "Unable to analyze image" }

/-- Embeds `VisionAnalyzer.quick_analyze` (vision_analyzer.py lines 43-151).
The function returns `self._fallback_analysis(image_bytes)` unconditionally at
line 64; the HuggingFace-API code below that `return` (lines 66-151) is
unreachable dead code, so the embedding is exactly the fallback path. -/
def quick_analyze (decode : ImageBytes → Option (Nat × Nat))
    (image_bytes : ImageBytes) : VisionResult :=
  fallback_analysis decode image_bytes

/-- Python values as they occur in remote-classifier responses: strings,
numbers, or None. -/
inductive PyVal where
  | vstr (s : String)
  | vnum (q : ℚ)
  | vnone
deriving DecidableEq

/-- Python truthiness for the values above (empty string, zero, None are
falsy). -/
def pyTruthy : PyVal → Bool
  | .vstr s => !(s == "")
  | .vnum q => !(q == 0)
  | .vnone => false

/-- Numeric coercion as used implicitly by comparisons such as
`confidence > 0.8`: comparing a string or None against a float raises a
TypeError in Python, modelled here as `none`. -/
def pyToNum : PyVal → Option ℚ
  | .vnum q => some q
  | .vstr _ => none
  | .vnone => none

/-- Rendering of a value inside an f-string. -/
def pyFormat : PyVal → String
  | .vstr s => s
  | .vnum q => toString q
  | .vnone => "None"

/-- Models Python `dict.get(key, default)` over a key/value list. -/
def dictGet (entries : List (String × PyVal)) (key : String) (dflt : PyVal) : PyVal :=
  match entries.find? (fun p => p.1 == key) with
  | some p => p.2
  | none => dflt

/-- Shape of the raw value returned by the Gradio `predict` call in
`HuggingFaceService.analyze_image_heavy`: a dict, a tuple, a bare string, or
anything else (a list, a number, None, ...). -/
inductive GradioResult where
  | rdict (entries : List (String × PyVal))
  | rtuple (items : List PyVal)
  | rstr (s : String)
  | rother
deriving DecidableEq

/-- The record built by `HuggingFaceService.analyze_image_heavy`:
pest_name is stored raw (the source puts the unconverted value in the dict),
confidence is a float, severity and description are strings. -/
structure HeavyRecord where
  pest_name : PyVal
  confidence : ℚ
  severity : String
  description : String
deriving DecidableEq

/-- Percent rendering standing in for the Python format spec `:.1%` (the
exact decimal rounding is abstracted; no claim depends on it). -/
def fmtPct (q : ℚ) : String := toString (q * 100) ++ "%"

/-- The shape dispatch of `analyze_image_heavy` (huggingface.py lines
113-125): dict with `.get` defaults, then tuple of length at least 2 with a
truthiness test on the first element, then bare string with assumed
confidence 0.8, and otherwise the sentinel pair (Unknown, 0.0). A tuple of
fewer than 2 elements also falls through to the sentinel branch. -/
def heavyParse : GradioResult → PyVal × PyVal
  | .rdict entries =>
      (dictGet entries "label" (.vstr "Unknown"), dictGet entries "confidence" (.vnum 0))
  | .rtuple (a :: b :: _) =>
      (if pyTruthy a then a else .vstr "Unknown", b)
  | .rtuple _ => (.vstr "Unknown", .vnum 0)
  | .rstr s => (.vstr s, .vnum (4/5))
  | .rother => (.vstr "Unknown", .vnum 0)

/-- Embeds `HuggingFaceService.analyze_image_heavy` (huggingface.py lines
67-157) from the point where a raw remote result is in hand. The severity
thresholds are confidence > 0.8 high, > 0.5 medium, else low. A non-numeric
confidence makes the Python comparison raise; the enclosing `except` then
returns the Error record (pest_name "Error", confidence 0.0, severity
"Unknown"), so the caller never sees an exception. -/
def analyze_image_heavy (result : GradioResult) : HeavyRecord :=
  let parsed := heavyParse result
  match pyToNum parsed.2 with
  | none =>
      { pest_name := .vstr "Error"
        confidence := 0
        severity := "Unknown"
        description := "Detection failed: unsupported operand comparison" }
  | some confidence =>
      let severity :=
        if confidence > 4/5 then "High"
        else if confidence > 1/2 then "Medium"
        else "Low"
      { pest_name := parsed.1
        confidence := confidence
        severity := severity
        description :=
          "Detected " ++ pyFormat parsed.1 ++ " with " ++ fmtPct confidence ++ " confidence" }

/-- Does a dict response carry a "label" key at all. -/
def hasLabelEntry (entries : List (String × PyVal)) : Bool :=
  entries.any (fun p => p.1 == "label")

/-- The unparseable-shape predicate exactly as the specification words it:
not a structured object with a label, not an ordered pair, not a bare label
string. -/
def claimUnparseable : GradioResult → Bool
  | .rdict entries => !hasLabelEntry entries
  | .rtuple items => decide (items.length < 2)
  | .rstr _ => false
  | .rother => true

/-- The shapes the code itself fails to recognize, i.e. the ones reaching the
`else` branch of `analyze_image_heavy`: anything that is not a dict, not a
tuple of length at least 2, and not a string. -/
def shapeUnrecognized : GradioResult → Bool
  | .rdict _ => false
  | .rtuple items => decide (items.length < 2)
  | .rstr _ => false
  | .rother => true

/-- Outbound websocket events emitted by `LiveModeManager` on the voice path
(live_mode.py). `tts_audio` carries either a URL (file save succeeded) or an
inline base64 payload (fallback); the boolean records which. -/
inductive OutEvent where
  | statusEv (message : String) (is_analyzing : Bool)
  | responseEv (text : String) (pest_detection : Option HeavyRecord)
  | ttsAudioEv (viaUrl : Bool)
  | textOnlyEv (text : String) (error : String)
  | errorEv (message : String)
  | stopTtsEv (message : String)
deriving DecidableEq

/-- Embeds `LiveModeManager._generate_and_send_tts` (live_mode.py lines
433-501) as the event trace it emits. The TTS engine is an oracle: `.ok`
yields a `tts_audio` event (URL form when the temp-file save worked, base64
form otherwise); `.error` is caught and yields the `text_only` fallback
event with the original text. -/
def generate_and_send_tts (tts : Except String (List Nat)) (saveOk : Bool)
    (text : String) : List OutEvent :=
  match tts with
  | .ok _ => if saveOk then [.ttsAudioEv true] else [.ttsAudioEv false]
  | .error _ => [.textOnlyEv text "TTS temporarily unavailable - showing text only"]

/-- Embeds `LiveModeManager._call_heavy_pest_detection` (live_mode.py lines
232-366) as its event trace. The waiting `status` event is emitted first in
both branches; `analyze_image_heavy` never raises, so the only raiser inside
the `try` is the LLM chat call, modelled by the `ollama` oracle. Its `.error`
case drives the `except` branch, which still emits a `response` event (with
the configuration-error record) followed by TTS for the error message. -/
def call_heavy_pest_detection (gr : GradioResult)
    (ollama : Except String String) (tts : Except String (List Nat))
    (saveOk : Bool) (language : String) : List OutEvent :=
  let waiting_msg :=
    if language == "english" then "🔬 Analyzing the pest, please wait a moment..."
    else "🔬 कीट का विश्लेषण कर रहे हैं, कृपया प्रतीक्षा करें..."
  let pest_result := analyze_image_heavy gr
  match ollama with
  | .ok response_text =>
      OutEvent.statusEv waiting_msg true ::
      OutEvent.responseEv response_text (some pest_result) ::
      generate_and_send_tts tts saveOk response_text
  | .error e =>
      let error_pest_result : HeavyRecord :=
        { pest_name := .vstr "Configuration Error"
          confidence := 0
          severity := "Unknown"
          description := e }
      let error_msg :=
        "⚠️ Pest detection model is not configured yet. " ++
        "To enable pest detection, please deploy an IP102 pest detection model to HuggingFace Spaces " ++
        "and update the HF_MODEL_ID in your .env file.\n\n" ++
        "For now, I can provide general pest management advice based on your description."
      OutEvent.statusEv waiting_msg true ::
      OutEvent.responseEv error_msg (some error_pest_result) ::
      generate_and_send_tts tts saveOk error_msg

/-- Embeds `LiveModeManager._generate_regular_response` (live_mode.py lines
368-431): on LLM success a `response` event (no pest_detection) followed by
TTS; an LLM failure is caught and emits only the generic `error` event. -/
def generate_regular_response (ollama : Except String String)
    (tts : Except String (List Nat)) (saveOk : Bool) : List OutEvent :=
  match ollama with
  | .ok response_text =>
      OutEvent.responseEv response_text none ::
      generate_and_send_tts tts saveOk response_text
  | .error _ =>
      [OutEvent.errorEv "Sorry, I encountered an error generating a response."]

/-- Embeds `LiveModeManager.process_voice_input` (live_mode.py lines
176-230): with a cached triage result, run `match_intent` and branch to the
heavy path when it escalates; without one (or when it does not escalate),
take the fast path. -/
def process_voice_input (gr : GradioResult) (ollama : Except String String)
    (tts : Except String (List Nat)) (saveOk : Bool)
    (latest : Option VisionResult) (language transcript : String) : List OutEvent :=
  match latest with
  | some vision_result =>
      if (match_intent transcript vision_result).should_call_heavy_model then
        call_heavy_pest_detection gr ollama tts saveOk language
      else
        generate_regular_response ollama tts saveOk
  | none => generate_regular_response ollama tts saveOk

/-- Recognizer for `response` events. -/
def isResponseEv : OutEvent → Bool
  | .responseEv _ _ => true
  | _ => false

/-- Recognizer for the audio phase: `tts_audio` or the `text_only`
fallback. -/
def isAudioPhaseEv : OutEvent → Bool
  | .ttsAudioEv _ => true
  | .textOnlyEv _ _ => true
  | _ => false

/-- Recognizer for `status` events. -/
def isStatusEv : OutEvent → Bool
  | .statusEv _ _ => true
  | _ => false

/-- In the trace, no `q`-event is emitted strictly before the first
`p`-event: every `q`-event is preceded by a `p`-event. -/
def emittedAfter (p q : OutEvent → Bool) (trace : List OutEvent) : Prop :=
  ((trace.takeWhile (fun e => !p e)).all (fun e => !q e)) = true

/-- One stored conversation message (session_manager.py `add_message`):
role, content, and an isoformat timestamp string. -/
structure StoredMsg where
  role : String
  content : String
  timestamp : String
deriving DecidableEq

/-- One message as sent to the LLM API: role and content only. -/
structure Msg where
  role : String
  content : String
deriving DecidableEq

/-- The pest-detail record attached to a session as `latest_pest_info` and
returned by the knowledge lookup `get_pest_info`. The Python code reads
these fields out of a dict with `.get` defaults; the structure holds the
fields after those defaults are applied. -/
structure PestInfo where
  label : String
  confidence : ℚ
  scientific_name : String
  severity : String
  affected_crops : List String
  description : String
  spread_method : String
  precautions : List String
deriving DecidableEq

/-- Embeds the `Session` dataclass (session_manager.py lines 16-50).
`created_at` is a timestamp in seconds. -/
structure Session where
  id : String
  created_at : ℚ
  messages : List StoredMsg
  detected_pests : List String
  latest_pest_info : Option PestInfo
  crop_type : Option String
  region : Option String
  language : String
deriving DecidableEq

/-- A freshly constructed `Session()`: the dataclass defaults, with the
uuid4 identifier and the creation instant passed in explicitly. -/
def Session.fresh (newId : String) (now : ℚ) : Session :=
  { id := newId
    created_at := now
    messages := []
    detected_pests := []
    latest_pest_info := none
    crop_type := none
    region := none
    language := "english" }

/-- Embeds `Session.add_message`: append a role/content/timestamp dict to
the history. -/
def add_message (s : Session) (role content nowIso : String) : Session :=
  { s with messages := s.messages ++ [{ role := role, content := content, timestamp := nowIso }] }

/-- Embeds `Session.add_detected_pest` (session_manager.py lines 37-45):
append the name only when it is not already present; a truthy `pest_info`
replaces `latest_pest_info`. -/
def add_detected_pest (s : Session) (pest_name : String)
    (pest_info : Option PestInfo) : Session :=
  let s1 :=
    if pest_name ∈ s.detected_pests then s
    else { s with detected_pests := s.detected_pests ++ [pest_name] }
  match pest_info with
  | some info => { s1 with latest_pest_info := some info }
  | none => s1

/-- Embeds `Session.is_expired` (session_manager.py lines 47-50):
`datetime.now() - created_at > timedelta(seconds=ttl_seconds)`, a strict
comparison. -/
def is_expired (s : Session) (ttl_seconds now : ℚ) : Bool :=
  decide (now - s.created_at > ttl_seconds)

/-- The in-memory store: the `self.sessions` dict as a key/value list in
insertion order. -/
abbrev Store := List (String × Session)

/-- Dict read `self.sessions.get(session_id)`. -/
def lookupS (store : Store) (key : String) : Option Session :=
  match store.find? (fun p => p.1 == key) with
  | some p => some p.2
  | none => none

/-- Dict write `self.sessions[key] = session`: replace in place if the key
exists, otherwise append. -/
def insertS (store : Store) (key : String) (v : Session) : Store :=
  match store with
  | [] => [(key, v)]
  | (k, w) :: rest =>
      if k == key then (key, v) :: rest else (k, w) :: insertS rest key v

/-- Dict delete `del self.sessions[key]`. -/
def eraseS (store : Store) (key : String) : Store :=
  store.filter (fun p => !(p.1 == key))

/-- Embeds `InMemorySessionStore.get_session` (session_manager.py lines
61-96). `fresh` models the uuid4 identifier the Session constructor would
generate. Python tests `if not session_id`, so an empty string behaves the
same as passing no identifier. Returns the session together with the updated
store. -/
def get_session (store : Store) (ttl now : ℚ) (fresh : String)
    (session_id : Option String) : Session × Store :=
  match session_id with
  | none =>
      let s := Session.fresh fresh now
      (s, insertS store fresh s)
  | some sid =>
      if sid == "" then
        let s := Session.fresh fresh now
        (s, insertS store fresh s)
      else
        match lookupS store sid with
        | some s =>
            if is_expired s ttl now then
              let s2 := Session.fresh fresh now
              (s2, insertS (eraseS store sid) fresh s2)
            else
              (s, store)
        | none =>
            let s2 := Session.fresh fresh now
            (s2, insertS store fresh s2)

/-- Outcome of the history endpoint: the 200 body of `ChatHistoryResponse`,
or an HTTP 404 with a detail string. -/
inductive HistoryResult where
  | ok (session_id : String) (messages : List StoredMsg)
      (detected_pests : List String) (created_at : ℚ)
  | http404 (detail : String)
deriving DecidableEq

/-- Embeds the `get_chat_history` endpoint (chat.py lines 108-126): it calls
`session_store.get_session(session_id)` and builds the response from the
returned session. `get_session` is total and never raises for an unknown
identifier, so the `except` branch that would produce the 404 is
unreachable. -/
def get_chat_history (store : Store) (ttl now : ℚ) (fresh : String)
    (session_id : String) : HistoryResult × Store :=
  let r := get_session store ttl now fresh (some session_id)
  (HistoryResult.ok r.1.id r.1.messages r.1.detected_pests r.1.created_at, r.2)

/-- Models Python `str.title()`: uppercase a letter that follows a
non-letter, lowercase the other letters (ASCII case mapping). -/
def pyTitle (s : String) : String :=
  String.mk (s.data.foldl
    (fun (acc : List Char × Bool) c =>
      let c2 := if acc.2 then c.toLower else c.toUpper
      (acc.1 ++ [c2], c.isAlpha))
    ([], false)).1

/-- The English base system prompt of
`HybridContextManager._get_system_prompt` (context_manager.py lines
94-119). -/
def base_prompt_english : String :=
  "You are an expert agricultural AI assistant specializing in pest management for Indian farmers.\n\n" ++
  "Your Role:\n" ++
  "- Provide practical, actionable advice for pest control and prevention\n" ++
  "- Explain solutions in simple, farmer-friendly language\n" ++
  "- Consider cost-effectiveness and local availability\n" ++
  "- Suggest both organic and chemical methods when appropriate\n" ++
  "- Prioritize farmer safety and environmental sustainability\n\n" ++
  "Your Capabilities:\n" ++
  "1. Analyze pest detection results from computer vision\n" ++
  "2. Recommend specific treatment strategies\n" ++
  "3. Explain pest life cycles and behavior\n" ++
  "4. Suggest prevention techniques\n" ++
  "5. Provide seasonal farming advice\n" ++
  "6. Consider regional climate factors\n\n" ++
  "Guidelines:\n" ++
  "- Be concise but thorough (2-4 paragraphs)\n" ++
  "- Use bullet points for action items\n" ++
  "- Prioritize immediate actions for urgent situations\n" ++
  "- Include both traditional knowledge and modern techniques\n" ++
  "- Mention when to seek expert help\n" ++
  "- Avoid overly technical jargon\n\n" ++
  "**IMPORTANT**: Respond in clear, simple English that farmers can understand."

/-- The Hindi base system prompt of
`HybridContextManager._get_system_prompt` (context_manager.py lines
76-92). -/
def base_prompt_hindi : String :=
  "आप एक कृषि विशेषज्ञ AI सहायक हैं जो भारतीय किसानों के लिए कीट प्रबंधन में विशेषज्ञता रखते हैं।\n\n" ++
  "आपकी भूमिका:\n" ++
  "- कीट नियंत्रण और रोकथाम के लिए व्यावहारिक, कार्यान्वयन योग्य सलाह प्रदान करें\n" ++
  "- सरल, किसान-अनुकूल भाषा में समाधान समझाएं\n" ++
  "- लागत-प्रभावशीलता और स्थानीय उपलब्धता पर विचार करें\n" ++
  "- उपयुक्त होने पर जैविक और रासायनिक दोनों विधियों का सुझाव दें\n" ++
  "- किसान सुरक्षा और पर्यावरणीय स्थिरता को प्राथमिकता दें\n\n" ++
  "दिशानिर्देश:\n" ++
  "- संक्षिप्त लेकिन पूर्ण रहें (2-4 पैराग्राफ)\n" ++
  "- कार्रवाई आइटम के लिए बुलेट पॉइंट का उपयोग करें\n" ++
  "- तत्काल स्थितियों के लिए तात्कालिक कार्रवाइयों को प्राथमिकता दें\n" ++
  "- पारंपरिक ज्ञान और आधुनिक तकनीकों दोनों को शामिल करें\n" ++
  "- जब विशेषज्ञ मदद लेनी हो तो उल्लेख करें\n\n" ++
  "**महत्वपूर्ण**: सभी उत्तर हिंदी (देवनागरी लिपि) में दें। सरल हिंदी शब्दों का उपयोग करें जो किसान समझ सकें।"

/-- Embeds `HybridContextManager._get_system_prompt` (context_manager.py
lines 70-142): language-selected base template plus the dynamic
detected-pests, crop-type and region lines when those session fields are
truthy. -/
def get_system_prompt (s : Session) : String :=
  let language := pyLower s.language
  let base := if language == "hindi" then base_prompt_hindi else base_prompt_english
  let base :=
    if !s.detected_pests.isEmpty then
      base ++
        (if language == "hindi" then "\n\nवर्तमान में पता लगाए गए कीट: "
         else "\n\nCurrently Detected Pests: ") ++
        String.intercalate ", " s.detected_pests
    else base
  let base :=
    match s.crop_type with
    | some ct =>
        if ct == "" then base
        else base ++ (if language == "hindi" then "\nफसल का प्रकार: " else "\nCrop Type: ") ++ ct
    | none => base
  match s.region with
  | some rg =>
      if rg == "" then base
      else base ++ (if language == "hindi" then "\nक्षेत्र: " else "\nRegion: ") ++ rg
  | none => base

/-- The latest-detection knowledge block of
`HybridContextManager._get_pest_context`, after the `.strip()`. The decimal
format spec `:.1f` on the confidence percentage is abstracted to exact
rational rendering. -/
def render_latest_info (info : PestInfo) : String :=
  "**Recently Detected Pest Information:**\n" ++
  "Pest: " ++ info.label ++ "\n" ++
  "Confidence: " ++ toString (info.confidence * 100) ++ "%\n" ++
  "Scientific Name: " ++ info.scientific_name ++ "\n" ++
  "Severity: " ++ info.severity ++ "\n" ++
  "Affected Crops: " ++ String.intercalate ", " info.affected_crops ++ "\n" ++
  "Description: " ++ info.description ++ "\n" ++
  "Spread Method: " ++ info.spread_method ++ "\n" ++
  "Known Precautions: " ++ String.intercalate ", " (info.precautions.take 3)

/-- The per-pest knowledge block of
`HybridContextManager._get_pest_context`, after the `.strip()`. -/
def render_pest_block (pest_name : String) (info : PestInfo) : String :=
  "**" ++ pyTitle pest_name ++ "** (" ++ info.scientific_name ++ "):\n" ++
  "- Severity: " ++ info.severity ++ "\n" ++
  "- Affected Crops: " ++ String.intercalate ", " info.affected_crops ++ "\n" ++
  "- Description: " ++ info.description ++ "\n" ++
  "- Spread Method: " ++ info.spread_method ++ "\n" ++
  "- Key Precautions: " ++ String.intercalate ", " (info.precautions.take 3)

/-- Embeds `HybridContextManager._get_pest_context` (context_manager.py
lines 144-196). The static `get_pest_info` table (pest_info.py) is passed in
as `lookup`; the per-pest `try` never fires because the lookup is total. -/
def get_pest_context (lookup : String → PestInfo) (s : Session) : String :=
  if s.detected_pests.isEmpty && s.latest_pest_info.isNone then ""
  else
    let latestBlocks :=
      match s.latest_pest_info with
      | some info => [render_latest_info info]
      | none => []
    let pest_details :=
      latestBlocks ++ s.detected_pests.map (fun n => render_pest_block n (lookup n))
    if !pest_details.isEmpty then
      "=== PEST KNOWLEDGE BASE ===\nUse this information to provide specific, accurate advice:\n\n" ++
      String.intercalate "\n\n" pest_details
    else ""

/-- The combined system-message content of
`HybridContextManager.build_context` step 2: prompt plus knowledge block
when the latter is non-empty. -/
def full_system_prompt (lookup : String → PestInfo) (s : Session) : String :=
  let system_prompt := get_system_prompt s
  let pest_context := get_pest_context lookup s
  if pest_context == "" then system_prompt
  else system_prompt ++ "\n\n" ++ pest_context

/-- The constructor arguments of `HybridContextManager` (defaults
max_history=8, max_tokens=6000). -/
structure ContextConfig where
  max_history : Nat
  max_tokens : Nat
deriving DecidableEq

/-- Models the Python negative slice `l[-n:]`: for positive `n` the last `n`
elements, but for `n = 0` the slice `l[-0:]` is `l[0:]`, the whole list. -/
def pySliceLast (n : Nat) (l : List StoredMsg) : List StoredMsg :=
  if n == 0 then l else l.drop (l.length - n)

/-- Embeds `HybridContextManager.build_context` (context_manager.py lines
22-68): one system message with prompt plus knowledge, then the sliding
window `session.messages[-max_history:]` with role and content preserved,
then the new user message. -/
def build_context (cfg : ContextConfig) (lookup : String → PestInfo)
    (user_message : String) (session : Session) : List Msg :=
  let recent_messages :=
    if session.messages.isEmpty then [] else pySliceLast cfg.max_history session.messages
  ({ role := "system", content := full_system_prompt lookup session } : Msg) ::
    (recent_messages.map (fun m => ({ role := m.role, content := m.content } : Msg)) ++
      [{ role := "user", content := user_message }])

/-- Embeds `HybridContextManager.estimate_tokens`: character count divided
by four. -/
def estimate_tokens (messages : List Msg) : Nat :=
  (messages.foldl (fun a m => a + m.content.length) 0) / 4

/-- Helper: a dict write is visible to a subsequent read of the same key. -/
theorem lookupS_insertS (st : Store) (k : String) (v : Session) :
    lookupS (insertS st k v) k = some v := by
  induction st with
  | nil => simp [insertS, lookupS, List.find?]
  | cons p rest ih =>
      obtain ⟨k1, w⟩ := p
      by_cases h : k1 == k
      · simp [insertS, h, lookupS, List.find?]
      · simpa [insertS, h, lookupS, List.find?] using ih

/-- C1: the escalation flag of `match_intent` is exactly the conjunction of
the bilingual keyword test on the (case-folded) transcript and the triage
relevance verdict; the confidence score, the detected objects and the
description play no role in the decision. -/
theorem c1_escalation_gate (q : String) (vr : VisionResult) :
    ((match_intent q vr).should_call_heavy_model = true ↔
      ((∃ kw ∈ pest_keywords, strContains (pyLower q) kw = true) ∧
        vr.has_relevant_content = true)) ∧
    ∀ objs c d,
      (match_intent q
        { has_relevant_content := vr.has_relevant_content,
          objects_detected := objs, confidence := c,
          description := d }).should_call_heavy_model
        = (match_intent q vr).should_call_heavy_model := by
  constructor
  · simp [match_intent, List.any_eq_true, Bool.and_eq_true]
  · intro objs c d
    simp [match_intent]

/-- C2 counterexample: a structured object carrying a confidence but no
label is, in the words of the claim, not "a structured object with a label",
yet the code takes the dict branch, keeps the supplied confidence 0.9 and
only substitutes the sentinel name — so the returned confidence is not
0.0. -/
theorem c2_counterexample :
    claimUnparseable (GradioResult.rdict [("confidence", PyVal.vnum (9/10))]) = true ∧
    (analyze_image_heavy
        (GradioResult.rdict [("confidence", PyVal.vnum (9/10))])).confidence = 9/10 ∧
    (9/10 : ℚ) ≠ 0 := by
  refine ⟨by decide, ?_, by norm_num⟩
  norm_num [analyze_image_heavy, heavyParse, dictGet, pyToNum, List.find?]

/-- C2 (amended): for every remote response whose shape the code does not
recognize — not a dict, not a tuple of at least two elements, not a bare
string — `analyze_image_heavy` returns the sentinel record with label
"Unknown" and confidence 0.0; being a total function it never raises. A dict
without a "label" key also receives the sentinel label but keeps its own
confidence value. -/
theorem c2_sentinel_on_unrecognized (r : GradioResult)
    (h : shapeUnrecognized r = true) :
    (analyze_image_heavy r).confidence = 0 ∧
    (analyze_image_heavy r).pest_name = PyVal.vstr "Unknown" := by
  cases r with
  | rdict entries => simp [shapeUnrecognized] at h
  | rtuple items =>
      match items with
      | [] => constructor <;> rfl
      | [a] => constructor <;> rfl
      | a :: b :: rest =>
          simp [shapeUnrecognized] at h
          omega
  | rstr s => simp [shapeUnrecognized] at h
  | rother => constructor <;> rfl

/-- C2 witness: the sentinel conclusion at a concrete unrecognized shape. -/
theorem c2_sentinel_witness :
    (analyze_image_heavy GradioResult.rother).confidence = 0 ∧
    (analyze_image_heavy GradioResult.rother).pest_name = PyVal.vstr "Unknown" :=
  c2_sentinel_on_unrecognized GradioResult.rother (by decide)

/-- C7: a frame whose bytes fail to decode makes `quick_analyze` report
not-relevant (and confidence 0.0); the function is total — the decode
failure is absorbed by the fallback, not raised. -/
theorem c7_undecodable_not_relevant (decode : ImageBytes → Option (Nat × Nat))
    (ib : ImageBytes) (h : decode ib = none) :
    (quick_analyze decode ib).has_relevant_content = false ∧
    (quick_analyze decode ib).confidence = 0 := by
  simp [quick_analyze, fallback_analysis, h]

/-- C7 witness: concrete undecodable input. -/
theorem c7_witness :
    (quick_analyze (fun _ => none) ([] : ImageBytes)).has_relevant_content = false ∧
    (quick_analyze (fun _ => none) ([] : ImageBytes)).confidence = 0 :=
  c7_undecodable_not_relevant (fun _ => none) [] rfl

/-- C9: `is_expired` holds exactly when the elapsed time since creation
strictly exceeds the TTL; at exactly the TTL it is false. -/
theorem c9_expiry_boundary (s : Session) (ttl now : ℚ) (_h : 0 ≤ ttl) :
    (is_expired s ttl now = true ↔ now - s.created_at > ttl) ∧
    (now - s.created_at = ttl → is_expired s ttl now = false) := by
  constructor
  · simp [is_expired]
  · intro he
    simp [is_expired, he]

/-- C9 witness: at TTL 5 and elapsed time exactly 5 the session is not
expired. -/
theorem c9_witness : is_expired (Session.fresh "s" 0) 5 5 = false :=
  (c9_expiry_boundary (Session.fresh "s" 0) 5 5 (by norm_num)).2 (by norm_num [Session.fresh])

/-- C10: the current triage never consults a classifier — `quick_analyze`
is exactly the fallback, so every decodable frame yields verdict true,
confidence exactly 0.5, and no recognized labels; consequently the
escalation decision after such a frame reduces to the keyword test on the
transcript alone. -/
theorem c10_triage_constant (decode : ImageBytes → Option (Nat × Nat))
    (ib : ImageBytes) (w h : Nat) (hd : decode ib = some (w, h)) :
    (quick_analyze decode ib).has_relevant_content = true ∧
    (quick_analyze decode ib).confidence = 1/2 ∧
    (quick_analyze decode ib).objects_detected = [] ∧
    ∀ transcript,
      (match_intent transcript (quick_analyze decode ib)).should_call_heavy_model
        = pest_keywords.any (fun kw => strContains (pyLower transcript) kw) := by
  simp [quick_analyze, fallback_analysis, hd, match_intent]

/-- C10 witness: a concrete decodable frame and a concrete transcript. -/
theorem c10_witness :
    (quick_analyze (fun _ => some (10, 10)) ([] : ImageBytes)).confidence = 1/2 ∧
    (match_intent "what pest is this"
        (quick_analyze (fun _ => some (10, 10)) ([] : ImageBytes))).should_call_heavy_model
      = pest_keywords.any (fun kw => strContains (pyLower "what pest is this") kw) :=
  ⟨(c10_triage_constant (fun _ => some (10, 10)) [] 10 10 rfl).2.1,
   (c10_triage_constant (fun _ => some (10, 10)) [] 10 10 rfl).2.2.2 "what pest is this"⟩

/-- C3: on every voice-path trace, no `tts_audio` or `text_only` event is
emitted before the `response` event carrying the reply text; and on the
escalation path the waiting `status` event precedes the `response` event.
Quantified over all oracle outcomes: the remote detection result, the LLM
success or failure, the TTS success or failure, and the audio-file save. -/
theorem c3_response_precedes_audio
    (gr : GradioResult) (ollama : Except String String)
    (tts : Except String (List Nat)) (saveOk : Bool)
    (latest : Option VisionResult) (language transcript : String) :
    emittedAfter isResponseEv isAudioPhaseEv
      (process_voice_input gr ollama tts saveOk latest language transcript) ∧
    ∀ vr, latest = some vr →
      (match_intent transcript vr).should_call_heavy_model = true →
      emittedAfter isStatusEv isResponseEv
        (process_voice_input gr ollama tts saveOk latest language transcript) := by
  cases latest with
  | none =>
      refine ⟨?_, by intro vr hvr; cases hvr⟩
      cases ollama <;> cases tts <;> cases saveOk <;>
        simp [process_voice_input, generate_regular_response, generate_and_send_tts,
          emittedAfter, isResponseEv, isAudioPhaseEv]
  | some vr =>
      by_cases hesc : (match_intent transcript vr).should_call_heavy_model = true
      · constructor
        · cases ollama <;> cases tts <;> cases saveOk <;>
            simp [process_voice_input, hesc, call_heavy_pest_detection,
              generate_and_send_tts, emittedAfter, isResponseEv, isAudioPhaseEv]
        · intro vr2 hvr2 _
          cases hvr2
          cases ollama <;> cases tts <;> cases saveOk <;>
            simp [process_voice_input, hesc, call_heavy_pest_detection,
              generate_and_send_tts, emittedAfter, isStatusEv, isResponseEv]
      · constructor
        · cases ollama <;> cases tts <;> cases saveOk <;>
            simp [process_voice_input, hesc, generate_regular_response,
              generate_and_send_tts, emittedAfter, isResponseEv, isAudioPhaseEv]
        · intro vr2 hvr2 hshould
          cases hvr2
          exact absurd hshould hesc

/-- C3 witness: both orderings on a concrete escalating trace. -/
theorem c3_witness :
    emittedAfter isResponseEv isAudioPhaseEv
      (process_voice_input GradioResult.rother (Except.ok "hi") (Except.ok []) true
        (some ⟨true, [], 1, "d"⟩) "english" "what pest is this") ∧
    emittedAfter isStatusEv isResponseEv
      (process_voice_input GradioResult.rother (Except.ok "hi") (Except.ok []) true
        (some ⟨true, [], 1, "d"⟩) "english" "what pest is this") :=
  ⟨(c3_response_precedes_audio GradioResult.rother (Except.ok "hi") (Except.ok [])
      true (some ⟨true, [], 1, "d"⟩) "english" "what pest is this").1,
   (c3_response_precedes_audio GradioResult.rother (Except.ok "hi") (Except.ok [])
      true (some ⟨true, [], 1, "d"⟩) "english" "what pest is this").2
      ⟨true, [], 1, "d"⟩ rfl (by decide)⟩

/-- The fixed knowledge lookup used for the C4 concrete instances. -/
def c4_lookup : String → PestInfo := fun _ =>
  { label := "", confidence := 0, scientific_name := "", severity := "",
    affected_crops := [], description := "", spread_method := "", precautions := [] }

/-- A session with a single stored message, used for the C4
counterexample. -/
def c4_session : Session :=
  { id := "s", created_at := 0,
    messages := [{ role := "user", content := "m1", timestamp := "t" }],
    detected_pests := [], latest_pest_info := none,
    crop_type := none, region := none, language := "english" }

/-- C4 counterexample: with `max_history = 0` the Python slice
`messages[-0:]` is the whole history, so a session holding one stored
message (which is at least `max_history` many) yields a context of 3
messages where the claim predicts `max_history + 2 = 2`. -/
theorem c4_counterexample :
    (0 : Nat) ≤ c4_session.messages.length ∧
    (build_context { max_history := 0, max_tokens := 6000 } c4_lookup
        "hello" c4_session).length = 3 ∧
    (3 : Nat) ≠ 0 + 2 := by
  refine ⟨by decide, rfl, by decide⟩

/-- C4 (amended): for every positive `max_history` and every session holding
at least `max_history` stored messages, the built context is exactly one
system message, then the last `max_history` stored messages in order with
roles and contents preserved, then one user message with the new utterance —
`max_history + 2` messages in total, so 10 for `max_history = 8` with 20
stored. (For `max_history = 0` the Python negative slice instead keeps the
whole history.) -/
theorem c4_window_shape (cfg : ContextConfig) (lookup : String → PestInfo)
    (um : String) (s : Session)
    (h1 : 1 ≤ cfg.max_history) (h2 : cfg.max_history ≤ s.messages.length) :
    build_context cfg lookup um s
      = ({ role := "system", content := full_system_prompt lookup s } : Msg) ::
        ((s.messages.drop (s.messages.length - cfg.max_history)).map
            (fun m => ({ role := m.role, content := m.content } : Msg)) ++
          [{ role := "user", content := um }]) ∧
    (build_context cfg lookup um s).length = cfg.max_history + 2 := by
  have hne : s.messages.isEmpty = false := by
    cases hm : s.messages with
    | nil => rw [hm] at h2; simp at h2; omega
    | cons a l => simp
  have hn0 : (cfg.max_history == 0) = false := by
    simp; omega
  constructor
  · simp [build_context, pySliceLast, hne, hn0]
  · simp [build_context, pySliceLast, hne, hn0]
    omega

/-- C4 witness: a session holding 20 stored messages with the default
window of 8 yields exactly 10 context messages. -/
theorem c4_witness :
    (build_context { max_history := 8, max_tokens := 6000 } c4_lookup "q"
        { id := "s", created_at := 0,
          messages := (List.range 20).map
            (fun i => { role := "user", content := toString i, timestamp := "t" }),
          detected_pests := [], latest_pest_info := none,
          crop_type := none, region := none, language := "english" }).length = 8 + 2 :=
  (c4_window_shape { max_history := 8, max_tokens := 6000 } c4_lookup "q"
      { id := "s", created_at := 0,
        messages := (List.range 20).map
          (fun i => { role := "user", content := toString i, timestamp := "t" }),
        detected_pests := [], latest_pest_info := none,
        crop_type := none, region := none, language := "english" }
      (by decide) (by decide)).2

/-- C5: `get_session` allocates and persists a session under a fresh
identifier whenever the supplied identifier is absent (Python-falsy), not
present in storage, or present but expired — in the latter two cases the
returned identifier differs from the supplied one — and returns the stored
session unmodified (with the store untouched) when it exists and is not
expired. The `fresh` argument models the uuid4 value, assumed distinct from
the supplied identifier. -/
theorem c5_get_or_create (store : Store) (ttl now : ℚ) (fresh sid : String)
    (hfresh : fresh ≠ sid) (hsid : sid ≠ "") :
    ((get_session store ttl now fresh none).1.id = fresh ∧
      lookupS (get_session store ttl now fresh none).2 fresh
        = some (get_session store ttl now fresh none).1) ∧
    (lookupS store sid = none →
      ((get_session store ttl now fresh (some sid)).1.id = fresh ∧
        (get_session store ttl now fresh (some sid)).1.id ≠ sid ∧
        lookupS (get_session store ttl now fresh (some sid)).2 fresh
          = some (get_session store ttl now fresh (some sid)).1)) ∧
    (∀ s, lookupS store sid = some s → is_expired s ttl now = true →
      ((get_session store ttl now fresh (some sid)).1.id = fresh ∧
        (get_session store ttl now fresh (some sid)).1.id ≠ sid ∧
        lookupS (get_session store ttl now fresh (some sid)).2 fresh
          = some (get_session store ttl now fresh (some sid)).1)) ∧
    (∀ s, lookupS store sid = some s → is_expired s ttl now = false →
      get_session store ttl now fresh (some sid) = (s, store)) := by
  refine ⟨⟨rfl, lookupS_insertS _ _ _⟩, ?_, ?_, ?_⟩
  · intro hnone
    simp only [get_session, hsid, if_neg, hnone]
    refine ⟨?_, ?_, ?_⟩
    · simp [hsid, Session.fresh]
    · simp [hsid, Session.fresh, hfresh]
    · simp only [beq_iff_eq, hsid, if_false]
      exact lookupS_insertS _ _ _
  · intro s hsome hexp
    simp only [get_session, beq_iff_eq, hsid, if_false, hsome, hexp, if_true]
    exact ⟨rfl, hfresh, lookupS_insertS _ _ _⟩
  · intro s hsome hlive
    simp only [get_session, beq_iff_eq, hsid, if_false, hsome, hlive]
    rfl

/-- C5 witness: an unknown identifier on the empty store yields the fresh
identifier, persisted. -/
theorem c5_witness :
    (get_session [] 10 0 "xyz" (some "abc")).1.id = "xyz" :=
  ((c5_get_or_create [] 10 0 "xyz" "abc" (by decide) (by decide)).2.1 rfl).1

/-- C6: evaluating the history endpoint at an identifier unknown to the
store. The endpoint auto-creates a session through
`session_store.get_session` and answers 200 with a fresh empty history under
a new identifier; it never produces the 404 its own handler advertises. -/
theorem c6_history_autocreates :
    (get_chat_history [] 3600 0 "fresh-uuid" "missing-id").1
      = HistoryResult.ok "fresh-uuid" [] [] 0 ∧
    ∀ d, (get_chat_history [] 3600 0 "fresh-uuid" "missing-id").1
      ≠ HistoryResult.http404 d := by
  refine ⟨rfl, ?_⟩
  intro d h
  exact HistoryResult.noConfusion h

/-- Helper: one `add_detected_pest` call preserves the no-duplicates
invariant of `detected_pests`. -/
theorem add_detected_pest_nodup (s : Session) (n : String) (i : Option PestInfo)
    (h : s.detected_pests.Nodup) :
    (add_detected_pest s n i).detected_pests.Nodup := by
  unfold add_detected_pest
  by_cases hm : n ∈ s.detected_pests
  · cases i <;> simp [hm, h]
  · cases i <;> simp [hm, h, List.nodup_append]

/-- C8: after any finite sequence of `add_detected_pest` calls — repeated
names included — a session whose `detected_pests` list had no duplicates
still has none. -/
theorem c8_no_duplicate_pests (s : Session)
    (calls : List (String × Option PestInfo))
    (h : s.detected_pests.Nodup) :
    (calls.foldl (fun acc c => add_detected_pest acc c.1 c.2) s).detected_pests.Nodup := by
  induction calls generalizing s with
  | nil => simpa using h
  | cons c rest ih =>
      simpa [List.foldl] using ih (add_detected_pest s c.1 c.2)
        (add_detected_pest_nodup s c.1 c.2 h)

/-- C8 witness: adding the same pest twice to a fresh session leaves no
duplicates. -/
theorem c8_witness :
    (([("aphid", none), ("aphid", none)] : List (String × Option PestInfo)).foldl
        (fun acc c => add_detected_pest acc c.1 c.2)
        (Session.fresh "s" 0)).detected_pests.Nodup :=
  c8_no_duplicate_pests (Session.fresh "s" 0)
    [("aphid", none), ("aphid", none)] (by simp [Session.fresh])

end Trinera
